import Mathlib

/-!
Verification of the `XmilePieInput` XML data-binding record
(`symbiosis/backend/data_processing/xmile_parser/bindings/xmile_pie_input.py`).

The source file is a declarative `@dataclasses.dataclass(kw_only=True)` record:
a list of field declarations, each with a value type, an Attribute/Element
kind, an optional namespace override and a required flag, together with a
nested `Meta` class giving the element tag (`pie_input`) and the record's
default namespace (`xmile_globals.ISEE_NAMESPACE`).  We embed those
declarations directly.  The XML binding engine that consumes the
declarations, and the modules `xmile_globals` / `xmile_plot`, are not part of
the supplied source, so they are modelled from the specification where
needed; each such definition carries a doc comment saying so.
-/

/-- Modelled from the spec: the module `xmile_globals` is imported by the
source file but is not under `src/`.  The ISEE vendor-extension namespace URI
is attested by the source file itself, whose module-level `__NAMESPACE__`
constant (the xsdata convention for the record's `Meta.namespace`) is
`"http://iseesystems.com/XMILE"`. -/
def ISEE_NAMESPACE : String := "http://iseesystems.com/XMILE"

/-- Modelled from the spec: the base XMILE interchange namespace, which the
spec calls "the base namespace", distinct from the ISEE vendor-extension
namespace. -/
def XMILE_NAMESPACE : String := "http://docs.oasis-open.org/xmile/ns/XMILE/v1.0"

/-- Field kind from the metadata `"type"` entry of each `dataclasses.field`:
`"Attribute"` or `"Element"`. -/
inductive FieldKind
  | attribute
  | element
deriving DecidableEq

/-- Value type of a field, read off the Python type annotation of the
corresponding `dataclasses.field`. -/
inductive ValueType
  | boolean
  | integer
  | float
  | text
  | numericUnion
  | nestedPlotList
deriving DecidableEq

/-- Default declared for a field: `legend_position` has no default (it is
required), the optional scalars default to `None`, and `plot` defaults to an
empty list via `default_factory=list`. -/
inductive FieldDefault
  | requiredNoDefault
  | noneDefault
  | emptyListFactory
deriving DecidableEq

/-- One field declaration of the dataclass: name, value type, Attribute or
Element kind, optional namespace override from the metadata, the metadata
`required` flag, and the declared default. -/
structure FieldDecl where
  name : String
  valueType : ValueType
  kind : FieldKind
  namespaceOverride : Option String
  required : Bool
  fieldDefault : FieldDefault
deriving DecidableEq

/-- The `Meta.name` of `XmilePieInput`: the XML element tag. -/
def Meta_name : String := "pie_input"

/-- The `Meta.namespace` of `XmilePieInput`: the record's default namespace,
which in the source is `xmile_globals.ISEE_NAMESPACE`. -/
def Meta_namespace : String := ISEE_NAMESPACE

/-- A field's resolved namespace: its explicit override when present,
otherwise the record's default namespace (spec §4.1). -/
def resolveNs (fd : FieldDecl) : String :=
  fd.namespaceOverride.getD Meta_namespace

/-- The sixteen field declarations of `XmilePieInput`, in declaration order,
transcribed from the source dataclass. -/
def xmilePieInputFields : List FieldDecl :=
  [ ⟨"round_values", .boolean, .attribute, some ISEE_NAMESPACE, false, .noneDefault⟩,
    ⟨"width", .float, .attribute, none, false, .noneDefault⟩,
    ⟨"y", .float, .attribute, none, false, .noneDefault⟩,
    ⟨"x", .numericUnion, .attribute, none, false, .noneDefault⟩,
    ⟨"title", .text, .attribute, none, false, .noneDefault⟩,
    ⟨"uid", .integer, .attribute, none, false, .noneDefault⟩,
    ⟨"transparent", .boolean, .attribute, some ISEE_NAMESPACE, false, .noneDefault⟩,
    ⟨"height", .numericUnion, .attribute, none, false, .noneDefault⟩,
    ⟨"color", .text, .attribute, none, false, .noneDefault⟩,
    ⟨"background", .text, .attribute, none, false, .noneDefault⟩,
    ⟨"font_family", .text, .attribute, none, false, .noneDefault⟩,
    ⟨"font_size", .text, .attribute, none, false, .noneDefault⟩,
    ⟨"legend_position", .text, .attribute, none, true, .requiredNoDefault⟩,
    ⟨"z_index", .integer, .attribute, none, false, .noneDefault⟩,
    ⟨"label_pie_slices", .boolean, .attribute, some ISEE_NAMESPACE, false, .noneDefault⟩,
    ⟨"plot", .nestedPlotList, .element, some XMILE_NAMESPACE, false, .emptyListFactory⟩ ]

/-- The source decorator is `@dataclasses.dataclass(kw_only=True)`: every
field of `XmilePieInput` must be passed by keyword. -/
def xmilePieInputKwOnly : Bool := true

/-- Modelled from the spec: `xmile_plot.XmilePlot` is imported by the source
file but is not under `src/`.  The spec treats it as an opaque nested
PlotRecord bound recursively by the external engine, so it is modelled as an
abstract record with decidable equality. -/
structure XmilePlot where
  raw : String
deriving DecidableEq

/-- A floating-point attribute value, kept as its (validated) lexical text:
the binding layer performs no arithmetic on it. -/
structure XFloat where
  lit : String
deriving DecidableEq

/-- Value of a numeric-union (`Union[float, int]`) field: an integer, or a
float kept as its lexical text (spec §9: an explicit two-case tagged
union resolved at parse time by a fixed lexical rule). -/
inductive NumUnion
  | asFloat (lit : String)
  | asInt (n : Int)
deriving DecidableEq

/-- The `XmilePieInput` record: fifteen scalar fields (all optional with
default `None` except the required `legend_position`) plus the `plot` list
defaulting to empty, in source declaration order. -/
@[ext]
structure XmilePieInput where
  round_values : Option Bool := none
  width : Option XFloat := none
  y : Option XFloat := none
  x : Option NumUnion := none
  title : Option String := none
  uid : Option Int := none
  transparent : Option Bool := none
  height : Option NumUnion := none
  color : Option String := none
  background : Option String := none
  font_family : Option String := none
  font_size : Option String := none
  legend_position : String
  z_index : Option Int := none
  label_pie_slices : Option Bool := none
  plot : List XmilePlot := []
deriving DecidableEq

/-- Minimal construction: only the required `legend_position` supplied, every
other field taking its declared default. -/
def mkMinimal (s : String) : XmilePieInput :=
  { legend_position := s }

/-! ### Lexical values

Modelled from the spec: the attribute-text lexical conventions of the
external binding engine (spec §4.1 `valueType` and §9 numeric-union note).
Integers are rendered in decimal; floats are kept as their lexical text. -/

/-- Decimal digit test on a character. -/
def isDigitChar (c : Char) : Bool :=
  48 ≤ c.toNat && c.toNat ≤ 57

/-- Numeric value of a decimal digit character. -/
def charDigitVal (c : Char) : Nat :=
  c.toNat - 48

/-- The decimal digit character for a value below ten. -/
def digitChar (d : Nat) : Char :=
  Char.ofNat (48 + d)

/-- Read a non-empty all-digit character list as a natural number. -/
def parseNatLex (cs : List Char) : Option Nat :=
  if cs ≠ [] ∧ cs.all isDigitChar then
    some (Nat.ofDigits 10 ((cs.map charDigitVal).reverse))
  else none

/-- Read an optionally `'-'`-signed digit list as an integer. -/
def parseIntLex (cs : List Char) : Option Int :=
  if cs.head? = some '-' then (parseNatLex cs.tail).map (fun m => -(Int.ofNat m))
  else (parseNatLex cs).map Int.ofNat

/-- Decimal rendering of a natural number, most significant digit first. -/
def natLexeme (n : Nat) : List Char :=
  if n = 0 then ['0'] else ((Nat.digits 10 n).map digitChar).reverse

/-- Decimal rendering of an integer. -/
def intLexeme (n : Int) : List Char :=
  if n < 0 then '-' :: natLexeme n.natAbs else natLexeme n.natAbs

/-- Exponent-marker test (`'e'` or `'E'`). -/
def isExpChar (c : Char) : Bool :=
  c == 'e' || c == 'E'

/-- Mantissa shape: at least one digit, only digits and at most one dot. -/
def isMantissaChars (cs : List Char) : Bool :=
  cs.any isDigitChar && cs.all (fun c => isDigitChar c || c == '.')
    && decide (cs.count '.' ≤ 1)

/-- Lexical well-formedness of a floating-point attribute text: an optional
leading sign, a mantissa, and an optional exponent part. -/
def isFloatLexeme (cs : List Char) : Bool :=
  let cs1 := if cs.head? = some '-' then cs.tail else cs
  let mant := cs1.takeWhile (fun c => !(isExpChar c))
  match cs1.dropWhile (fun c => !(isExpChar c)) with
  | [] => isMantissaChars mant
  | _ :: ex =>
      let ex1 := if ex.head? = some '-' || ex.head? = some '+' then ex.tail else ex
      isMantissaChars mant && !ex1.isEmpty && ex1.all isDigitChar

/-- Attribute text reader for a boolean field. -/
def parseBoolText (s : String) : Option Bool :=
  if s = "true" then some true else if s = "false" then some false else none

/-- Attribute text rendering of a boolean field. -/
def boolText (b : Bool) : String :=
  if b then "true" else "false"

/-- Attribute text reader for an integer field. -/
def parseIntText (s : String) : Option Int :=
  parseIntLex s.toList

/-- Attribute text rendering of an integer field. -/
def intText (n : Int) : String :=
  ⟨intLexeme n⟩

/-- Attribute text reader for a float-only field: the text is validated and
kept as the field value. -/
def parseFloatText (s : String) : Option XFloat :=
  if isFloatLexeme s.toList then some ⟨s⟩ else none

/-- Attribute text rendering of a float-only field. -/
def floatText (f : XFloat) : String :=
  f.lit

/-- Integer-form test of the numeric-union lexical rule: the text carries no
decimal point and no exponent marker. -/
def numUnionIntForm (s : String) : Bool :=
  s.toList.all (fun c => !(c == '.' || isExpChar c))

/-- Attribute text reader for a numeric-union (`Union[float, int]`) field:
classified as an integer when the text has no fractional or exponent marker
and reads as a whole number, otherwise as a float (spec §4.1). -/
def parseNumUnionText (s : String) : Option NumUnion :=
  match (if numUnionIntForm s then parseIntText s else none) with
  | some n => some (.asInt n)
  | none => (parseFloatText s).map (fun f => .asFloat f.lit)

/-- Attribute text rendering of a numeric-union field. -/
def numUnionText : NumUnion → String
  | .asFloat lit => lit
  | .asInt n => intText n

/-- Well-formedness of a float value held by a record: its lexical text is a
valid float text. -/
def XFloat.Wf (f : XFloat) : Prop :=
  isFloatLexeme f.lit.toList = true

/-- Well-formedness of a numeric-union value held by a record: a float branch
only carries text that the lexical rule would again classify as float. -/
def NumUnion.Wf : NumUnion → Prop
  | .asInt _ => True
  | .asFloat lit =>
      (if numUnionIntForm lit then parseIntText lit else none) = none
        ∧ isFloatLexeme lit.toList = true

/-! ### XML element model and the binding engine

Modelled from the spec (§4.3): the external binding engine consumes the
record descriptor (`Meta_name`, `Meta_namespace`) and the field declarations
and transforms a parsed XML element node into a record and back.  Attribute
lookups use the field's resolved namespace; for every attribute field of
this record that resolved namespace is `ISEE_NAMESPACE` (the three
ISEE-override fields explicitly, the rest by inheriting the record default),
while the `plot` child elements live in `XMILE_NAMESPACE`. -/

/-- A namespaced XML attribute with its text value. -/
structure XmlAttr where
  ns : String
  name : String
  value : String
deriving DecidableEq

/-- A child element node.  The only declared Element field of this record is
the `plot` list; nested binding of a `plot` node is performed by the external
engine, so a child node carries the `XmilePlot` it binds to. -/
structure XmlChild where
  ns : String
  tag : String
  payload : XmilePlot
deriving DecidableEq

/-- A parsed XML element node: its namespace, tag, attributes and child
elements in document order. -/
structure XmlElement where
  ns : String
  tag : String
  attrs : List XmlAttr
  children : List XmlChild
deriving DecidableEq

/-- Binding-time failure (spec §7): a typed error identifying the offending
field — a required field is absent, or an attribute text cannot be coerced
to the field's declared type. -/
inductive BindError
  | schemaViolation (fieldName : String)
deriving DecidableEq

/-- First attribute value with the given resolved namespace and name. -/
def findAttr (attrs : List XmlAttr) (ns nm : String) : Option String :=
  (attrs.find? (fun a => a.ns == ns && a.name == nm)).map (fun a => a.value)

/-- Bind an optional attribute field: an absent attribute yields `none`, a
present attribute must coerce through `p` or binding fails. -/
def bindOpt {α : Type} (p : String → Option α) (attrs : List XmlAttr)
    (ns nm : String) : Except BindError (Option α) :=
  match findAttr attrs ns nm with
  | none => .ok none
  | some v =>
      match p v with
      | some a => .ok (some a)
      | none => .error (.schemaViolation nm)

/-- Bind the required `legend_position` text attribute: absence is a schema
violation. -/
def bindReq (attrs : List XmlAttr) (ns nm : String) : Except BindError String :=
  match findAttr attrs ns nm with
  | some v => .ok v
  | none => .error (.schemaViolation nm)

/-- The `plot` child elements of a node, in document order; children not
matching the declared `plot` descriptor are ignored. -/
def plotChildren (el : XmlElement) : List XmilePlot :=
  el.children.filterMap
    (fun c => if c.ns == XMILE_NAMESPACE && c.tag == "plot" then some c.payload else none)

/-- Bind a `pie_input` element node to an `XmilePieInput` record, field by
field in declaration order. -/
def bindPieInput (el : XmlElement) : Except BindError XmilePieInput :=
  if el.tag = Meta_name ∧ el.ns = Meta_namespace then
    bindOpt parseBoolText el.attrs ISEE_NAMESPACE "round_values" >>= fun round_values =>
    bindOpt parseFloatText el.attrs ISEE_NAMESPACE "width" >>= fun width =>
    bindOpt parseFloatText el.attrs ISEE_NAMESPACE "y" >>= fun y =>
    bindOpt parseNumUnionText el.attrs ISEE_NAMESPACE "x" >>= fun x =>
    bindOpt Option.some el.attrs ISEE_NAMESPACE "title" >>= fun title =>
    bindOpt parseIntText el.attrs ISEE_NAMESPACE "uid" >>= fun uid =>
    bindOpt parseBoolText el.attrs ISEE_NAMESPACE "transparent" >>= fun transparent =>
    bindOpt parseNumUnionText el.attrs ISEE_NAMESPACE "height" >>= fun height =>
    bindOpt Option.some el.attrs ISEE_NAMESPACE "color" >>= fun color =>
    bindOpt Option.some el.attrs ISEE_NAMESPACE "background" >>= fun background =>
    bindOpt Option.some el.attrs ISEE_NAMESPACE "font_family" >>= fun font_family =>
    bindOpt Option.some el.attrs ISEE_NAMESPACE "font_size" >>= fun font_size =>
    bindReq el.attrs ISEE_NAMESPACE "legend_position" >>= fun legend_position =>
    bindOpt parseIntText el.attrs ISEE_NAMESPACE "z_index" >>= fun z_index =>
    bindOpt parseBoolText el.attrs ISEE_NAMESPACE "label_pie_slices" >>= fun label_pie_slices =>
    Except.ok
      { round_values, width, y, x, title, uid, transparent, height, color,
        background, font_family, font_size, legend_position, z_index,
        label_pie_slices, plot := plotChildren el }
  else Except.error (.schemaViolation Meta_name)

/-- The serialized attribute of one optional field, empty when absent. -/
def optAttr (ns nm : String) : Option String → List XmlAttr
  | none => []
  | some v => [⟨ns, nm, v⟩]

/-- Serialize a record's attributes in field declaration order, each under
its resolved namespace; absent optional fields emit nothing. -/
def serializeAttrs (r : XmilePieInput) : List XmlAttr :=
  optAttr ISEE_NAMESPACE "round_values" (r.round_values.map boolText) ++
  optAttr ISEE_NAMESPACE "width" (r.width.map floatText) ++
  optAttr ISEE_NAMESPACE "y" (r.y.map floatText) ++
  optAttr ISEE_NAMESPACE "x" (r.x.map numUnionText) ++
  optAttr ISEE_NAMESPACE "title" r.title ++
  optAttr ISEE_NAMESPACE "uid" (r.uid.map intText) ++
  optAttr ISEE_NAMESPACE "transparent" (r.transparent.map boolText) ++
  optAttr ISEE_NAMESPACE "height" (r.height.map numUnionText) ++
  optAttr ISEE_NAMESPACE "color" r.color ++
  optAttr ISEE_NAMESPACE "background" r.background ++
  optAttr ISEE_NAMESPACE "font_family" r.font_family ++
  optAttr ISEE_NAMESPACE "font_size" r.font_size ++
  optAttr ISEE_NAMESPACE "legend_position" (some r.legend_position) ++
  optAttr ISEE_NAMESPACE "z_index" (r.z_index.map intText) ++
  optAttr ISEE_NAMESPACE "label_pie_slices" (r.label_pie_slices.map boolText)

/-- Serialize a record back to a `pie_input` element node: the record tag and
default namespace from `Meta`, attributes in declaration order, and the
`plot` list as child elements in sequence order. -/
def serializePieInput (r : XmilePieInput) : XmlElement :=
  ⟨Meta_namespace, Meta_name, serializeAttrs r,
    r.plot.map (fun p => ⟨XMILE_NAMESPACE, "plot", p⟩)⟩

/-- The well-formedness a record acquires by being the result of a
successful bind: every float-typed value it holds carries valid float text,
and every numeric-union float branch re-classifies as float. -/
def WfRec (r : XmilePieInput) : Prop :=
  (∀ f ∈ r.width, f.Wf) ∧ (∀ f ∈ r.y, f.Wf)
    ∧ (∀ u ∈ r.x, u.Wf) ∧ (∀ u ∈ r.height, u.Wf)

/-! ### Concrete elements and records used by the witnesses -/

def elRoundTrip : XmlElement :=
  ⟨ISEE_NAMESPACE, "pie_input",
    [⟨ISEE_NAMESPACE, "legend_position", "bottom"⟩,
     ⟨ISEE_NAMESPACE, "x", "10.5"⟩,
     ⟨ISEE_NAMESPACE, "uid", "42"⟩],
    [⟨XMILE_NAMESPACE, "plot", ⟨"A"⟩⟩]⟩

def rRoundTrip : XmilePieInput :=
  { x := some (NumUnion.asFloat "10.5"), uid := some 42,
    legend_position := "bottom", plot := [⟨"A"⟩] }

def elPlots : XmlElement :=
  ⟨ISEE_NAMESPACE, "pie_input", [⟨ISEE_NAMESPACE, "legend_position", "top"⟩],
    [⟨XMILE_NAMESPACE, "plot", ⟨"A"⟩⟩, ⟨XMILE_NAMESPACE, "plot", ⟨"B"⟩⟩,
     ⟨XMILE_NAMESPACE, "plot", ⟨"C"⟩⟩]⟩

def rPlots : XmilePieInput :=
  { legend_position := "top", plot := [⟨"A"⟩, ⟨"B"⟩, ⟨"C"⟩] }

def elMinimal : XmlElement :=
  ⟨ISEE_NAMESPACE, "pie_input", [⟨ISEE_NAMESPACE, "legend_position", "left"⟩], []⟩

def elNum : XmlElement :=
  ⟨ISEE_NAMESPACE, "pie_input",
    [⟨ISEE_NAMESPACE, "legend_position", "right"⟩, ⟨ISEE_NAMESPACE, "x", "10"⟩,
     ⟨ISEE_NAMESPACE, "height", "10.5"⟩], []⟩

def rNum : XmilePieInput :=
  { x := some (NumUnion.asInt 10), height := some (NumUnion.asFloat "10.5"),
    legend_position := "right" }

def rIsee : XmilePieInput :=
  { round_values := some true, transparent := some false,
    label_pie_slices := some true, legend_position := "center" }

/-! ### Theorems -/

theorem charDigitVal_digitChar {d : Nat} (hd : d < 10) :
    charDigitVal (digitChar d) = d := by
  interval_cases d <;> decide

theorem isDigitChar_digitChar {d : Nat} (hd : d < 10) :
    isDigitChar (digitChar d) = true := by
  interval_cases d <;> decide

theorem natLexeme_ne_nil (n : Nat) : natLexeme n ≠ [] := by
  unfold natLexeme
  split
  · simp
  · simpa using Nat.digits_ne_nil_iff_ne_zero.mpr (by assumption)

theorem natLexeme_all_digit (n : Nat) : (natLexeme n).all isDigitChar = true := by
  unfold natLexeme
  split
  · decide
  · simp only [List.all_eq_true, List.mem_reverse, List.mem_map]
    rintro c ⟨d, hd, rfl⟩
    exact isDigitChar_digitChar (Nat.digits_lt_base (by norm_num) hd)

theorem parseNatLex_natLexeme (n : Nat) : parseNatLex (natLexeme n) = some n := by
  rcases eq_or_ne n 0 with rfl | hn
  · decide
  · have hne := natLexeme_ne_nil n
    have hall := natLexeme_all_digit n
    unfold parseNatLex
    rw [if_pos ⟨hne, hall⟩]
    unfold natLexeme
    rw [if_neg hn]
    congr 1
    rw [List.map_reverse, List.reverse_reverse, List.map_map]
    have hmap : List.map (charDigitVal ∘ digitChar) (Nat.digits 10 n)
        = List.map id (Nat.digits 10 n) :=
      List.map_congr_left (fun d hd =>
        charDigitVal_digitChar (Nat.digits_lt_base (by norm_num) hd))
    rw [hmap, List.map_id, Nat.ofDigits_digits]

theorem natLexeme_head_digit (n : Nat) {c : Char} {cs : List Char}
    (h : natLexeme n = c :: cs) : isDigitChar c = true := by
  have hall := natLexeme_all_digit n
  rw [h] at hall
  simp only [List.all_cons, Bool.and_eq_true] at hall
  exact hall.1

theorem natLexeme_head?_ne_minus (n : Nat) : (natLexeme n).head? ≠ some '-' := by
  cases h : natLexeme n with
  | nil => simp
  | cons c cs =>
    have := natLexeme_head_digit n h
    simp only [List.head?_cons, ne_eq, Option.some.injEq]
    rintro rfl
    simp [isDigitChar] at this

theorem parseIntLex_intLexeme (n : Int) : parseIntLex (intLexeme n) = some n := by
  unfold intLexeme
  split
  · rename_i hneg
    unfold parseIntLex
    rw [if_pos (by simp), List.tail_cons, parseNatLex_natLexeme]
    simp only [Option.map_some', Int.ofNat_eq_coe]
    congr 1
    omega
  · rename_i hpos
    unfold parseIntLex
    rw [if_neg (natLexeme_head?_ne_minus _), parseNatLex_natLexeme]
    simp only [Option.map_some', Int.ofNat_eq_coe]
    congr 1
    omega

theorem parseBoolText_boolText (b : Bool) : parseBoolText (boolText b) = some b := by
  cases b <;> decide

theorem parseIntText_intText (n : Int) : parseIntText (intText n) = some n := by
  unfold parseIntText intText
  rw [show (String.mk (intLexeme n)).toList = intLexeme n from rfl]
  exact parseIntLex_intLexeme n

theorem parseFloatText_floatText (f : XFloat) (hf : f.Wf) :
    parseFloatText (floatText f) = some f := by
  have hf' : isFloatLexeme f.lit.toList = true := hf
  unfold parseFloatText floatText
  rw [if_pos hf']

theorem intLexeme_no_marker (n : Int) :
    (intLexeme n).all (fun c => !(c == '.' || isExpChar c)) = true := by
  have hnat : ∀ m : Nat, (natLexeme m).all (fun c => !(c == '.' || isExpChar c)) = true := by
    intro m
    have hall := natLexeme_all_digit m
    simp only [List.all_eq_true] at hall ⊢
    intro c hc
    have hd := hall c hc
    simp only [isDigitChar, Bool.and_eq_true, decide_eq_true_eq] at hd
    simp only [isExpChar, Bool.not_eq_true', Bool.or_eq_false_iff, beq_eq_false_iff_ne, ne_eq]
    refine ⟨?_, ?_, ?_⟩ <;> (rintro rfl; simp at hd)
  unfold intLexeme
  split
  · simp only [List.all_cons, Bool.and_eq_true]
    exact ⟨by decide, hnat _⟩
  · exact hnat _

theorem numUnionIntForm_intText (n : Int) : numUnionIntForm (intText n) = true := by
  unfold numUnionIntForm intText
  exact intLexeme_no_marker n

theorem parseNumUnionText_numUnionText (u : NumUnion) (hu : u.Wf) :
    parseNumUnionText (numUnionText u) = some u := by
  cases u with
  | asInt n =>
      unfold parseNumUnionText numUnionText
      rw [numUnionIntForm_intText, if_pos rfl, parseIntText_intText]
  | asFloat lit =>
      obtain ⟨h1, h2⟩ := hu
      unfold parseNumUnionText numUnionText
      rw [h1]
      unfold parseFloatText
      rw [if_pos h2]
      rfl

/-! ### Characterization of a successful bind -/

theorem exceptBind_ok {ε α β : Type} (x : Except ε α) (f : α → Except ε β) (b : β) :
    (x >>= f) = Except.ok b ↔ ∃ a, x = Except.ok a ∧ f a = Except.ok b := by
  cases x with
  | error e =>
      constructor
      · intro h
        exact absurd h (by simp [Bind.bind, Except.bind])
      · rintro ⟨a, ha, -⟩
        exact absurd ha (by simp)
  | ok a =>
      constructor
      · intro h
        exact ⟨a, rfl, h⟩
      · rintro ⟨a', ha', hf⟩
        cases ha'
        exact hf

theorem exceptOk_bind {ε α β : Type} (a : α) (f : α → Except ε β) :
    ((Except.ok a : Except ε α) >>= f) = f a := rfl

theorem bindReq_ok_iff (attrs : List XmlAttr) (ns nm v : String) :
    bindReq attrs ns nm = Except.ok v ↔ findAttr attrs ns nm = some v := by
  unfold bindReq
  cases h : findAttr attrs ns nm <;> simp

/-- A successful bind, spelled out: the element carries the record tag and
default namespace, every field's bound value comes from looking its resolved
attribute up, `legend_position` is present, and `plot` collects the plot
children in document order. -/
theorem bindPieInput_ok_iff (el : XmlElement) (r : XmilePieInput) :
    bindPieInput el = Except.ok r ↔
      (el.tag = Meta_name ∧ el.ns = Meta_namespace)
        ∧ bindOpt parseBoolText el.attrs ISEE_NAMESPACE "round_values" = Except.ok r.round_values
        ∧ bindOpt parseFloatText el.attrs ISEE_NAMESPACE "width" = Except.ok r.width
        ∧ bindOpt parseFloatText el.attrs ISEE_NAMESPACE "y" = Except.ok r.y
        ∧ bindOpt parseNumUnionText el.attrs ISEE_NAMESPACE "x" = Except.ok r.x
        ∧ bindOpt Option.some el.attrs ISEE_NAMESPACE "title" = Except.ok r.title
        ∧ bindOpt parseIntText el.attrs ISEE_NAMESPACE "uid" = Except.ok r.uid
        ∧ bindOpt parseBoolText el.attrs ISEE_NAMESPACE "transparent" = Except.ok r.transparent
        ∧ bindOpt parseNumUnionText el.attrs ISEE_NAMESPACE "height" = Except.ok r.height
        ∧ bindOpt Option.some el.attrs ISEE_NAMESPACE "color" = Except.ok r.color
        ∧ bindOpt Option.some el.attrs ISEE_NAMESPACE "background" = Except.ok r.background
        ∧ bindOpt Option.some el.attrs ISEE_NAMESPACE "font_family" = Except.ok r.font_family
        ∧ bindOpt Option.some el.attrs ISEE_NAMESPACE "font_size" = Except.ok r.font_size
        ∧ findAttr el.attrs ISEE_NAMESPACE "legend_position" = some r.legend_position
        ∧ bindOpt parseIntText el.attrs ISEE_NAMESPACE "z_index" = Except.ok r.z_index
        ∧ bindOpt parseBoolText el.attrs ISEE_NAMESPACE "label_pie_slices" = Except.ok r.label_pie_slices
        ∧ r.plot = plotChildren el := by
  constructor
  · intro h
    unfold bindPieInput at h
    split at h
    case isFalse => exact absurd h (by simp)
    case isTrue hg =>
      simp only [exceptBind_ok, bindReq_ok_iff, Except.ok.injEq] at h
      obtain ⟨v1, h1, v2, h2, v3, h3, v4, h4, v5, h5, v6, h6, v7, h7, v8, h8,
        v9, h9, v10, h10, v11, h11, v12, h12, v13, h13, v14, h14, v15, h15, hr⟩ := h
      subst hr
      exact ⟨hg, h1, h2, h3, h4, h5, h6, h7, h8, h9, h10, h11, h12, h13, h14, h15, rfl⟩
  · rintro ⟨hg, h1, h2, h3, h4, h5, h6, h7, h8, h9, h10, h11, h12, h13, h14, h15, hp⟩
    unfold bindPieInput
    rw [if_pos hg, h1, exceptOk_bind, h2, exceptOk_bind, h3, exceptOk_bind,
      h4, exceptOk_bind, h5, exceptOk_bind, h6, exceptOk_bind, h7, exceptOk_bind,
      h8, exceptOk_bind, h9, exceptOk_bind, h10, exceptOk_bind, h11, exceptOk_bind,
      h12, exceptOk_bind, (bindReq_ok_iff el.attrs ISEE_NAMESPACE "legend_position"
        r.legend_position).mpr h13, exceptOk_bind, h14, exceptOk_bind,
      h15, exceptOk_bind, ← hp]

/-! ### Attribute lookup over a serialized record -/

theorem findAttr_append (l1 l2 : List XmlAttr) (ns nm : String) :
    findAttr (l1 ++ l2) ns nm
      = (findAttr l1 ns nm).orElse (fun _ => findAttr l2 ns nm) := by
  induction l1 with
  | nil => simp [findAttr]
  | cons a l ih =>
      by_cases h : (a.ns == ns && a.name == nm) = true
      · simp [findAttr, List.find?_cons, h]
      · simpa [findAttr, List.find?_cons, h] using ih

theorem findAttr_optAttr (ns nm ns' nm' : String) (v : Option String) :
    findAttr (optAttr ns nm v) ns' nm'
      = if ns = ns' ∧ nm = nm' then v else none := by
  cases v with
  | none => simp [optAttr, findAttr]
  | some s =>
      by_cases h : ns = ns' ∧ nm = nm'
      · obtain ⟨rfl, rfl⟩ := h
        simp [optAttr, findAttr]
      · rw [if_neg h]
        have hfalse : ((⟨ns, nm, s⟩ : XmlAttr).ns == ns'
            && (⟨ns, nm, s⟩ : XmlAttr).name == nm') = false := by
          rcases not_and_or.mp h with h' | h' <;> simp [h']
        simp [optAttr, findAttr, List.find?_cons, hfalse]

theorem findAttr_serialize (r : XmilePieInput) (nm : String) :
    findAttr (serializeAttrs r) ISEE_NAMESPACE nm
      = if nm = "round_values" then r.round_values.map boolText
        else if nm = "width" then r.width.map floatText
        else if nm = "y" then r.y.map floatText
        else if nm = "x" then r.x.map numUnionText
        else if nm = "title" then r.title
        else if nm = "uid" then r.uid.map intText
        else if nm = "transparent" then r.transparent.map boolText
        else if nm = "height" then r.height.map numUnionText
        else if nm = "color" then r.color
        else if nm = "background" then r.background
        else if nm = "font_family" then r.font_family
        else if nm = "font_size" then r.font_size
        else if nm = "legend_position" then some r.legend_position
        else if nm = "z_index" then r.z_index.map intText
        else if nm = "label_pie_slices" then r.label_pie_slices.map boolText
        else none := by
  unfold serializeAttrs
  rw [findAttr_append, findAttr_append, findAttr_append, findAttr_append,
    findAttr_append, findAttr_append, findAttr_append, findAttr_append,
    findAttr_append, findAttr_append, findAttr_append, findAttr_append,
    findAttr_append, findAttr_append]
  rw [findAttr_optAttr, findAttr_optAttr, findAttr_optAttr, findAttr_optAttr,
    findAttr_optAttr, findAttr_optAttr, findAttr_optAttr, findAttr_optAttr,
    findAttr_optAttr, findAttr_optAttr, findAttr_optAttr, findAttr_optAttr,
    findAttr_optAttr, findAttr_optAttr, findAttr_optAttr]
  by_cases h1 : nm = "round_values"
  case pos =>
    subst h1
    cases hv : r.round_values <;> simp [Option.orElse]
  case neg =>
  by_cases h2 : nm = "width"
  case pos =>
    subst h2
    cases hv : r.width <;> simp [Option.orElse]
  case neg =>
  by_cases h3 : nm = "y"
  case pos =>
    subst h3
    cases hv : r.y <;> simp [Option.orElse]
  case neg =>
  by_cases h4 : nm = "x"
  case pos =>
    subst h4
    cases hv : r.x <;> simp [Option.orElse]
  case neg =>
  by_cases h5 : nm = "title"
  case pos =>
    subst h5
    cases hv : r.title <;> simp [Option.orElse]
  case neg =>
  by_cases h6 : nm = "uid"
  case pos =>
    subst h6
    cases hv : r.uid <;> simp [Option.orElse]
  case neg =>
  by_cases h7 : nm = "transparent"
  case pos =>
    subst h7
    cases hv : r.transparent <;> simp [Option.orElse]
  case neg =>
  by_cases h8 : nm = "height"
  case pos =>
    subst h8
    cases hv : r.height <;> simp [Option.orElse]
  case neg =>
  by_cases h9 : nm = "color"
  case pos =>
    subst h9
    cases hv : r.color <;> simp [Option.orElse]
  case neg =>
  by_cases h10 : nm = "background"
  case pos =>
    subst h10
    cases hv : r.background <;> simp [Option.orElse]
  case neg =>
  by_cases h11 : nm = "font_family"
  case pos =>
    subst h11
    cases hv : r.font_family <;> simp [Option.orElse]
  case neg =>
  by_cases h12 : nm = "font_size"
  case pos =>
    subst h12
    cases hv : r.font_size <;> simp [Option.orElse]
  case neg =>
  by_cases h13 : nm = "legend_position"
  case pos =>
    subst h13
    simp [Option.orElse]
  case neg =>
  by_cases h14 : nm = "z_index"
  case pos =>
    subst h14
    cases hv : r.z_index <;> simp [Option.orElse]
  case neg =>
  by_cases h15 : nm = "label_pie_slices"
  case pos =>
    subst h15
    cases hv : r.label_pie_slices <;> simp [Option.orElse]
  case neg =>
  simp [Option.orElse, Ne.symm h1, Ne.symm h2, Ne.symm h3, Ne.symm h4, Ne.symm h5,
    Ne.symm h6, Ne.symm h7, Ne.symm h8, Ne.symm h9, Ne.symm h10, Ne.symm h11,
    Ne.symm h12, Ne.symm h13, Ne.symm h14, Ne.symm h15,
    h1, h2, h3, h4, h5, h6, h7, h8, h9, h10, h11, h12, h13, h14, h15]

/-! ### Round trip: serialize then re-bind -/

theorem bindOpt_of_findAttr_none {α : Type} (p : String → Option α)
    (attrs : List XmlAttr) (ns nm : String) (h : findAttr attrs ns nm = none) :
    bindOpt p attrs ns nm = Except.ok none := by
  unfold bindOpt
  rw [h]

theorem bindOpt_ok_values {α : Type} {p : String → Option α} {attrs : List XmlAttr}
    {ns nm : String} {o : Option α} (h : bindOpt p attrs ns nm = Except.ok o) :
    ∀ a ∈ o, ∃ s, findAttr attrs ns nm = some s ∧ p s = some a := by
  intro a ha
  rw [Option.mem_def] at ha
  unfold bindOpt at h
  split at h
  · cases h
    cases ha
  · rename_i v hfa
    split at h
    · rename_i b hb
      cases h
      injection ha with hba
      subst hba
      exact ⟨v, hfa, hb⟩
    · cases h

theorem bindOpt_of_map {α : Type} (p : String → Option α) (tX : α → String)
    (attrs : List XmlAttr) (ns nm : String) (o : Option α)
    (hfa : findAttr attrs ns nm = o.map tX) (hrt : ∀ a ∈ o, p (tX a) = some a) :
    bindOpt p attrs ns nm = Except.ok o := by
  cases o with
  | none =>
      simp only [Option.map_none'] at hfa
      exact bindOpt_of_findAttr_none p attrs ns nm hfa
  | some a =>
      simp only [Option.map_some'] at hfa
      unfold bindOpt
      rw [hfa]
      show (match p (tX a) with
        | some b => Except.ok (some b)
        | none => Except.error (BindError.schemaViolation nm)) = Except.ok (some a)
      rw [hrt a rfl]

theorem parseFloatText_wf {s : String} {f : XFloat} (h : parseFloatText s = some f) :
    f.Wf := by
  unfold parseFloatText at h
  split at h
  · cases h
    assumption
  · cases h

theorem parseNumUnionText_wf {s : String} {u : NumUnion}
    (h : parseNumUnionText s = some u) : u.Wf := by
  unfold parseNumUnionText at h
  cases hi : (if numUnionIntForm s then parseIntText s else none) with
  | some n =>
      rw [hi] at h
      cases h
      trivial
  | none =>
      rw [hi] at h
      cases hf : parseFloatText s with
      | none => rw [hf] at h; cases h
      | some f =>
          rw [hf] at h
          cases h
          have hwf := parseFloatText_wf hf
          have hs : f.lit = s := by
            unfold parseFloatText at hf
            split at hf
            · cases hf; rfl
            · cases hf
          constructor
          · rw [hs]; exact hi
          · exact hwf

theorem bindPieInput_wfRec {el : XmlElement} {r : XmilePieInput}
    (h : bindPieInput el = Except.ok r) : WfRec r := by
  obtain ⟨-, -, hw, hy, hx, -, -, -, hh, -⟩ := (bindPieInput_ok_iff el r).mp h
  refine ⟨?_, ?_, ?_, ?_⟩
  · intro f hf
    obtain ⟨s, -, hp⟩ := bindOpt_ok_values hw f hf
    exact parseFloatText_wf hp
  · intro f hf
    obtain ⟨s, -, hp⟩ := bindOpt_ok_values hy f hf
    exact parseFloatText_wf hp
  · intro u hu
    obtain ⟨s, -, hp⟩ := bindOpt_ok_values hx u hu
    exact parseNumUnionText_wf hp
  · intro u hu
    obtain ⟨s, -, hp⟩ := bindOpt_ok_values hh u hu
    exact parseNumUnionText_wf hp

theorem plotChildren_serialize (r : XmilePieInput) :
    plotChildren (serializePieInput r) = r.plot := by
  unfold plotChildren serializePieInput
  generalize r.plot = l
  induction l with
  | nil => rfl
  | cons p ps ih => simpa using ih

theorem bindPieInput_serialize (r : XmilePieInput) (hr : WfRec r) :
    bindPieInput (serializePieInput r) = Except.ok r := by
  obtain ⟨hw, hy, hx, hh⟩ := hr
  have hattrs : (serializePieInput r).attrs = serializeAttrs r := rfl
  rw [bindPieInput_ok_iff]
  refine ⟨⟨rfl, rfl⟩, ?_, ?_, ?_, ?_, ?_, ?_, ?_, ?_, ?_, ?_, ?_, ?_, ?_, ?_, ?_, ?_⟩
  · exact bindOpt_of_map _ boolText _ _ _ _ (by rw [hattrs, findAttr_serialize]; simp)
      (fun b _ => parseBoolText_boolText b)
  · exact bindOpt_of_map _ floatText _ _ _ _ (by rw [hattrs, findAttr_serialize]; simp)
      (fun f hf => parseFloatText_floatText f (hw f hf))
  · exact bindOpt_of_map _ floatText _ _ _ _ (by rw [hattrs, findAttr_serialize]; simp)
      (fun f hf => parseFloatText_floatText f (hy f hf))
  · exact bindOpt_of_map _ numUnionText _ _ _ _ (by rw [hattrs, findAttr_serialize]; simp)
      (fun u hu => parseNumUnionText_numUnionText u (hx u hu))
  · exact bindOpt_of_map _ id _ _ _ _ (by rw [hattrs, findAttr_serialize]; simp)
      (fun s _ => rfl)
  · exact bindOpt_of_map _ intText _ _ _ _ (by rw [hattrs, findAttr_serialize]; simp)
      (fun n _ => parseIntText_intText n)
  · exact bindOpt_of_map _ boolText _ _ _ _ (by rw [hattrs, findAttr_serialize]; simp)
      (fun b _ => parseBoolText_boolText b)
  · exact bindOpt_of_map _ numUnionText _ _ _ _ (by rw [hattrs, findAttr_serialize]; simp)
      (fun u hu => parseNumUnionText_numUnionText u (hh u hu))
  · exact bindOpt_of_map _ id _ _ _ _ (by rw [hattrs, findAttr_serialize]; simp)
      (fun s _ => rfl)
  · exact bindOpt_of_map _ id _ _ _ _ (by rw [hattrs, findAttr_serialize]; simp)
      (fun s _ => rfl)
  · exact bindOpt_of_map _ id _ _ _ _ (by rw [hattrs, findAttr_serialize]; simp)
      (fun s _ => rfl)
  · exact bindOpt_of_map _ id _ _ _ _ (by rw [hattrs, findAttr_serialize]; simp)
      (fun s _ => rfl)
  · rw [hattrs, findAttr_serialize]
    simp
  · exact bindOpt_of_map _ intText _ _ _ _ (by rw [hattrs, findAttr_serialize]; simp)
      (fun n _ => parseIntText_intText n)
  · exact bindOpt_of_map _ boolText _ _ _ _ (by rw [hattrs, findAttr_serialize]; simp)
      (fun b _ => parseBoolText_boolText b)
  · exact (plotChildren_serialize r).symm

/-! ### Further helper facts about a successful bind -/

theorem bindOpt_ok_none {α : Type} {p : String → Option α} {attrs : List XmlAttr}
    {ns nm : String} {o : Option α} (h : bindOpt p attrs ns nm = Except.ok o)
    (hfa : findAttr attrs ns nm = none) : o = none := by
  rw [bindOpt_of_findAttr_none p attrs ns nm hfa] at h
  cases h
  rfl

theorem bindOpt_ok_some {α : Type} {p : String → Option α} {attrs : List XmlAttr}
    {ns nm v : String} {o : Option α} (h : bindOpt p attrs ns nm = Except.ok o)
    (hfa : findAttr attrs ns nm = some v) : o = p v := by
  unfold bindOpt at h
  split at h
  · rename_i hfa'
    rw [hfa'] at hfa
    cases hfa
  · rename_i v' hfa'
    rw [hfa'] at hfa
    injection hfa with hv
    subst hv
    split at h
    · rename_i b hb
      cases h
      rw [hb]
    · cases h

/-! ### The claims -/

/-- C1: `legend_position` is the sole required field of `XmilePieInput`: its
declaration is the only one flagged required and the only one with no
default, and binding any `pie_input` element whose attributes lack
`legend_position` fails with a SchemaViolation error, producing no record. -/
theorem legend_position_required_sole :
    ((xmilePieInputFields.filter (fun fd => fd.required)).map (fun fd => fd.name)
        = ["legend_position"])
    ∧ ((xmilePieInputFields.filter
          (fun fd => fd.fieldDefault == FieldDefault.requiredNoDefault)).map
          (fun fd => fd.name) = ["legend_position"])
    ∧ (∀ el : XmlElement, findAttr el.attrs ISEE_NAMESPACE "legend_position" = none →
        ∃ fld, bindPieInput el = Except.error (BindError.schemaViolation fld)) := by
  refine ⟨by decide, by decide, ?_⟩
  intro el h
  cases hb : bindPieInput el with
  | ok r =>
      obtain ⟨-, -, -, -, -, -, -, -, -, -, -, -, -, hleg, -⟩ :=
        (bindPieInput_ok_iff el r).mp hb
      rw [h] at hleg
      cases hleg
  | error e =>
      cases e with
      | schemaViolation fld => exact ⟨fld, rfl⟩

theorem legend_position_required_sole_witness :
    findAttr (⟨ISEE_NAMESPACE, "pie_input", [], []⟩ : XmlElement).attrs
        ISEE_NAMESPACE "legend_position" = none
    ∧ ∃ fld, bindPieInput ⟨ISEE_NAMESPACE, "pie_input", [], []⟩
        = Except.error (BindError.schemaViolation fld) :=
  ⟨rfl, legend_position_required_sole.2.2 ⟨ISEE_NAMESPACE, "pie_input", [], []⟩ rfl⟩

/-- C2 counterexample: the record's default namespace (`Meta.namespace`,
inherited by every field without an explicit override) is not the base XMILE
namespace — the source sets it to `xmile_globals.ISEE_NAMESPACE`. -/
theorem default_namespace_not_base_xmile :
    ¬(Meta_namespace = XMILE_NAMESPACE) := by
  decide

/-- C2 (amended): the record descriptor of `XmilePieInput` associates element
tag `"pie_input"` with a single default namespace inherited by every field
with no explicit override, and that default namespace is the ISEE
vendor-extension namespace, distinct from the base XMILE namespace. -/
theorem default_namespace_is_isee :
    Meta_name = "pie_input"
    ∧ Meta_namespace = ISEE_NAMESPACE
    ∧ ISEE_NAMESPACE ≠ XMILE_NAMESPACE
    ∧ ∀ fd ∈ xmilePieInputFields, fd.namespaceOverride = none →
        resolveNs fd = Meta_namespace := by
  refine ⟨rfl, rfl, by decide, ?_⟩
  intro fd hfd hover
  simp [resolveNs, hover]

theorem default_namespace_is_isee_witness :
    resolveNs ⟨"width", ValueType.float, FieldKind.attribute, none, false,
        FieldDefault.noneDefault⟩ = Meta_namespace :=
  default_namespace_is_isee.2.2.2 _ (by decide) rfl

/-- C3: for every `pie_input` element that binds successfully, the round trip
record → serialize → re-bind yields the identical record, field for field,
absent-vs-present state and `plot` order included. -/
theorem bindPieInput_roundTrip (el : XmlElement) (r : XmilePieInput)
    (h : bindPieInput el = Except.ok r) :
    bindPieInput (serializePieInput r) = Except.ok r :=
  bindPieInput_serialize r (bindPieInput_wfRec h)

theorem bindPieInput_roundTrip_witness :
    bindPieInput elRoundTrip = Except.ok rRoundTrip
    ∧ bindPieInput (serializePieInput rRoundTrip) = Except.ok rRoundTrip :=
  ⟨rfl, bindPieInput_roundTrip elRoundTrip rRoundTrip rfl⟩

/-- C4: `plot` is the only Element-kind field (all others bind as
attributes); its declaration is a list of `XmilePlot` in the XMILE
namespace; binding a document with plot children A, B, C in document order
yields the sequence [A, B, C], and serializing emits them in that order. -/
theorem plot_sole_element_ordered :
    ((xmilePieInputFields.filter (fun fd => fd.kind == FieldKind.element)).map
        (fun fd => fd.name) = ["plot"])
    ∧ (∀ fd ∈ xmilePieInputFields, fd.name ≠ "plot" →
        fd.kind = FieldKind.attribute)
    ∧ ((xmilePieInputFields.find? (fun fd => fd.name == "plot")).map
        (fun fd => (fd.valueType, fd.namespaceOverride))
        = some (ValueType.nestedPlotList, some XMILE_NAMESPACE))
    ∧ (∀ (el : XmlElement) (r : XmilePieInput) (A B C : XmilePlot),
        bindPieInput el = Except.ok r → plotChildren el = [A, B, C] →
          r.plot = [A, B, C])
    ∧ (∀ r : XmilePieInput, (serializePieInput r).children
        = r.plot.map (fun p => ⟨XMILE_NAMESPACE, "plot", p⟩)) := by
  refine ⟨by decide, by decide, by decide, ?_, fun r => rfl⟩
  intro el r A B C h habc
  obtain ⟨-, -, -, -, -, -, -, -, -, -, -, -, -, -, -, -, hplot⟩ :=
    (bindPieInput_ok_iff el r).mp h
  rw [hplot, habc]

theorem plot_sole_element_ordered_witness :
    bindPieInput elPlots = Except.ok rPlots
    ∧ rPlots.plot = [⟨"A"⟩, ⟨"B"⟩, ⟨"C"⟩]
    ∧ (serializePieInput rPlots).children
        = rPlots.plot.map (fun p => ⟨XMILE_NAMESPACE, "plot", p⟩) :=
  ⟨rfl,
   plot_sole_element_ordered.2.2.2.1 elPlots rPlots ⟨"A"⟩ ⟨"B"⟩ ⟨"C"⟩ rfl rfl,
   plot_sole_element_ordered.2.2.2.2 rPlots⟩

/-- C5: every field except `legend_position` and `plot` is an optional
scalar declared with a `None` default; after a successful bind, each such
field whose attribute is absent holds the explicit no-value state `none`,
which is distinct from placeholder values like `some ""` or `some 0`. -/
theorem optional_absent_is_none :
    (∀ fd ∈ xmilePieInputFields,
        fd.name ≠ "legend_position" → fd.name ≠ "plot" →
          fd.required = false ∧ fd.fieldDefault = FieldDefault.noneDefault)
    ∧ (∀ (el : XmlElement) (r : XmilePieInput), bindPieInput el = Except.ok r →
        ((findAttr el.attrs ISEE_NAMESPACE "round_values" = none → r.round_values = none)
          ∧ (findAttr el.attrs ISEE_NAMESPACE "width" = none → r.width = none)
          ∧ (findAttr el.attrs ISEE_NAMESPACE "y" = none → r.y = none)
          ∧ (findAttr el.attrs ISEE_NAMESPACE "x" = none → r.x = none)
          ∧ (findAttr el.attrs ISEE_NAMESPACE "title" = none → r.title = none)
          ∧ (findAttr el.attrs ISEE_NAMESPACE "uid" = none → r.uid = none)
          ∧ (findAttr el.attrs ISEE_NAMESPACE "transparent" = none → r.transparent = none)
          ∧ (findAttr el.attrs ISEE_NAMESPACE "height" = none → r.height = none)
          ∧ (findAttr el.attrs ISEE_NAMESPACE "color" = none → r.color = none)
          ∧ (findAttr el.attrs ISEE_NAMESPACE "background" = none → r.background = none)
          ∧ (findAttr el.attrs ISEE_NAMESPACE "font_family" = none → r.font_family = none)
          ∧ (findAttr el.attrs ISEE_NAMESPACE "font_size" = none → r.font_size = none)
          ∧ (findAttr el.attrs ISEE_NAMESPACE "z_index" = none → r.z_index = none)
          ∧ (findAttr el.attrs ISEE_NAMESPACE "label_pie_slices" = none →
              r.label_pie_slices = none)))
    ∧ ((none : Option String) ≠ some "" ∧ (none : Option Int) ≠ some 0
        ∧ (none : Option NumUnion) ≠ some (NumUnion.asInt 0)) := by
  refine ⟨by decide, ?_, by decide, by decide, by decide⟩
  intro el r h
  obtain ⟨-, h1, h2, h3, h4, h5, h6, h7, h8, h9, h10, h11, h12, -, h14, h15, -⟩ :=
    (bindPieInput_ok_iff el r).mp h
  exact ⟨fun hn => bindOpt_ok_none h1 hn, fun hn => bindOpt_ok_none h2 hn,
    fun hn => bindOpt_ok_none h3 hn, fun hn => bindOpt_ok_none h4 hn,
    fun hn => bindOpt_ok_none h5 hn, fun hn => bindOpt_ok_none h6 hn,
    fun hn => bindOpt_ok_none h7 hn, fun hn => bindOpt_ok_none h8 hn,
    fun hn => bindOpt_ok_none h9 hn, fun hn => bindOpt_ok_none h10 hn,
    fun hn => bindOpt_ok_none h11 hn, fun hn => bindOpt_ok_none h12 hn,
    fun hn => bindOpt_ok_none h14 hn, fun hn => bindOpt_ok_none h15 hn⟩

theorem optional_absent_is_none_witness :
    bindPieInput elMinimal = Except.ok (mkMinimal "left")
    ∧ (mkMinimal "left").round_values = none
    ∧ (mkMinimal "left").title = none :=
  ⟨rfl,
   (optional_absent_is_none.2.1 elMinimal (mkMinimal "left") rfl).1 rfl,
   (optional_absent_is_none.2.1 elMinimal (mkMinimal "left") rfl).2.2.2.2.1 rfl⟩

/-- C6: `x` and `height` are declared as the numeric union
`Union[float, int]` while `width` and `y` are float-only; a numeric-union
attribute text binds as an integer exactly when it has no decimal point or
exponent marker and reads as a whole number, and otherwise binds as a float
value (when the text is valid float text). -/
theorem numeric_union_classification :
    ((xmilePieInputFields.find? (fun fd => fd.name == "x")).map
        (fun fd => fd.valueType) = some ValueType.numericUnion)
    ∧ ((xmilePieInputFields.find? (fun fd => fd.name == "height")).map
        (fun fd => fd.valueType) = some ValueType.numericUnion)
    ∧ ((xmilePieInputFields.find? (fun fd => fd.name == "width")).map
        (fun fd => fd.valueType) = some ValueType.float)
    ∧ ((xmilePieInputFields.find? (fun fd => fd.name == "y")).map
        (fun fd => fd.valueType) = some ValueType.float)
    ∧ (∀ (s : String) (n : Int), numUnionIntForm s = true → parseIntText s = some n →
        parseNumUnionText s = some (NumUnion.asInt n))
    ∧ (∀ s : String, (if numUnionIntForm s then parseIntText s else none) = none →
        isFloatLexeme s.toList = true →
          parseNumUnionText s = some (NumUnion.asFloat s))
    ∧ (∀ (el : XmlElement) (r : XmilePieInput) (v : String),
        bindPieInput el = Except.ok r →
          (findAttr el.attrs ISEE_NAMESPACE "x" = some v → r.x = parseNumUnionText v)
          ∧ (findAttr el.attrs ISEE_NAMESPACE "height" = some v →
              r.height = parseNumUnionText v)) := by
  refine ⟨by decide, by decide, by decide, by decide, ?_, ?_, ?_⟩
  · intro s n h1 h2
    unfold parseNumUnionText
    rw [if_pos h1, h2]
  · intro s h1 h2
    unfold parseNumUnionText
    rw [h1]
    unfold parseFloatText
    rw [if_pos h2]
    rfl
  · intro el r v h
    obtain ⟨-, -, -, -, hx, -, -, -, hh, -⟩ := (bindPieInput_ok_iff el r).mp h
    exact ⟨fun hfa => bindOpt_ok_some hx hfa, fun hfa => bindOpt_ok_some hh hfa⟩

theorem numeric_union_classification_witness :
    parseNumUnionText "10" = some (NumUnion.asInt 10)
    ∧ parseNumUnionText "10.5" = some (NumUnion.asFloat "10.5")
    ∧ bindPieInput elNum = Except.ok rNum
    ∧ rNum.x = parseNumUnionText "10"
    ∧ rNum.height = parseNumUnionText "10.5" :=
  ⟨numeric_union_classification.2.2.2.2.1 "10" 10 rfl rfl,
   numeric_union_classification.2.2.2.2.2.1 "10.5" rfl rfl,
   rfl,
   (numeric_union_classification.2.2.2.2.2.2 elNum rNum "10" rfl).1 rfl,
   (numeric_union_classification.2.2.2.2.2.2 elNum rNum "10.5" rfl).2 rfl⟩

/-- C7: a `pie_input` element with zero plot children binds with `plot`
equal to the empty sequence — not an absent value — and the absence of
children is never itself a binding error; the `plot` declaration defaults
to the empty list. -/
theorem plot_empty_binds_empty :
    (∀ (el : XmlElement) (r : XmilePieInput), bindPieInput el = Except.ok r →
        plotChildren el = [] → r.plot = [])
    ∧ (∀ (el : XmlElement) (r : XmilePieInput), bindPieInput el = Except.ok r →
        bindPieInput ⟨el.ns, el.tag, el.attrs, ([] : List XmlChild)⟩
          = Except.ok { r with plot := ([] : List XmilePlot) })
    ∧ ((xmilePieInputFields.find? (fun fd => fd.name == "plot")).map
        (fun fd => fd.fieldDefault) = some FieldDefault.emptyListFactory) := by
  refine ⟨?_, ?_, by decide⟩
  · intro el r h hempty
    obtain ⟨-, -, -, -, -, -, -, -, -, -, -, -, -, -, -, -, hplot⟩ :=
      (bindPieInput_ok_iff el r).mp h
    rw [hplot, hempty]
  · intro el r h
    rw [bindPieInput_ok_iff] at h ⊢
    obtain ⟨hg, h1, h2, h3, h4, h5, h6, h7, h8, h9, h10, h11, h12, h13, h14, h15, -⟩ := h
    exact ⟨hg, h1, h2, h3, h4, h5, h6, h7, h8, h9, h10, h11, h12, h13, h14, h15, rfl⟩

theorem plot_empty_binds_empty_witness :
    plotChildren elMinimal = []
    ∧ (mkMinimal "left").plot = ([] : List XmilePlot) :=
  ⟨rfl, plot_empty_binds_empty.1 elMinimal (mkMinimal "left") rfl rfl⟩

/-- C8: exactly the three fields `round_values`, `transparent` and
`label_pie_slices` carry an explicit ISEE namespace override, they
serialize under that namespace URI, and every sibling field without an
override serializes under the record's default namespace. -/
theorem isee_namespace_overrides :
    ((xmilePieInputFields.filter
        (fun fd => fd.namespaceOverride == some ISEE_NAMESPACE)).map
        (fun fd => fd.name) = ["round_values", "transparent", "label_pie_slices"])
    ∧ (∀ (r : XmilePieInput) (b : Bool), r.round_values = some b →
        (⟨ISEE_NAMESPACE, "round_values", boolText b⟩ : XmlAttr)
          ∈ (serializePieInput r).attrs)
    ∧ (∀ (r : XmilePieInput) (b : Bool), r.transparent = some b →
        (⟨ISEE_NAMESPACE, "transparent", boolText b⟩ : XmlAttr)
          ∈ (serializePieInput r).attrs)
    ∧ (∀ (r : XmilePieInput) (b : Bool), r.label_pie_slices = some b →
        (⟨ISEE_NAMESPACE, "label_pie_slices", boolText b⟩ : XmlAttr)
          ∈ (serializePieInput r).attrs)
    ∧ (∀ fd ∈ xmilePieInputFields, fd.namespaceOverride = none →
        resolveNs fd = Meta_namespace) := by
  refine ⟨by decide, ?_, ?_, ?_, ?_⟩
  · intro r b hb
    show _ ∈ serializeAttrs r
    unfold serializeAttrs
    rw [hb]
    simp [optAttr]
  · intro r b hb
    show _ ∈ serializeAttrs r
    unfold serializeAttrs
    rw [hb]
    simp [optAttr]
  · intro r b hb
    show _ ∈ serializeAttrs r
    unfold serializeAttrs
    rw [hb]
    simp [optAttr]
  · intro fd hfd hover
    simp [resolveNs, hover]

theorem isee_namespace_overrides_witness :
    (⟨ISEE_NAMESPACE, "round_values", boolText true⟩ : XmlAttr)
        ∈ (serializePieInput rIsee).attrs
    ∧ (⟨ISEE_NAMESPACE, "transparent", boolText false⟩ : XmlAttr)
        ∈ (serializePieInput rIsee).attrs
    ∧ (⟨ISEE_NAMESPACE, "label_pie_slices", boolText true⟩ : XmlAttr)
        ∈ (serializePieInput rIsee).attrs :=
  ⟨isee_namespace_overrides.2.1 rIsee true rfl,
   isee_namespace_overrides.2.2.1 rIsee false rfl,
   isee_namespace_overrides.2.2.2.1 rIsee true rfl⟩

/-- C9: the dataclass is declared keyword-only, and the minimal construction
supplying only `legend_position` succeeds for every string, with every other
scalar field defaulting to `none` and `plot` to the empty list. -/
theorem mkMinimal_kwOnly_defaults (s : String) :
    xmilePieInputKwOnly = true
    ∧ (mkMinimal s).legend_position = s
    ∧ (mkMinimal s).round_values = none
    ∧ (mkMinimal s).width = none
    ∧ (mkMinimal s).y = none
    ∧ (mkMinimal s).x = none
    ∧ (mkMinimal s).title = none
    ∧ (mkMinimal s).uid = none
    ∧ (mkMinimal s).transparent = none
    ∧ (mkMinimal s).height = none
    ∧ (mkMinimal s).color = none
    ∧ (mkMinimal s).background = none
    ∧ (mkMinimal s).font_family = none
    ∧ (mkMinimal s).font_size = none
    ∧ (mkMinimal s).z_index = none
    ∧ (mkMinimal s).label_pie_slices = none
    ∧ (mkMinimal s).plot = ([] : List XmilePlot) :=
  ⟨rfl, rfl, rfl, rfl, rfl, rfl, rfl, rfl, rfl, rfl, rfl, rfl, rfl, rfl, rfl,
   rfl, rfl⟩

/-- C10: equality of `XmilePieInput` records is field-wise structural over
the fifteen scalar fields and the `plot` list, and `plot` list equality is
itself element-wise (same length and equal entries at every index). -/
theorem eq_iff_fieldwise (a b : XmilePieInput) :
    (a = b ↔
      (a.round_values = b.round_values ∧ a.width = b.width ∧ a.y = b.y
        ∧ a.x = b.x ∧ a.title = b.title ∧ a.uid = b.uid
        ∧ a.transparent = b.transparent ∧ a.height = b.height
        ∧ a.color = b.color ∧ a.background = b.background
        ∧ a.font_family = b.font_family ∧ a.font_size = b.font_size
        ∧ a.legend_position = b.legend_position ∧ a.z_index = b.z_index
        ∧ a.label_pie_slices = b.label_pie_slices ∧ a.plot = b.plot))
    ∧ (a.plot = b.plot ↔
        (a.plot.length = b.plot.length
          ∧ ∀ (i : Nat) (h1 : i < a.plot.length) (h2 : i < b.plot.length),
              a.plot.get ⟨i, h1⟩ = b.plot.get ⟨i, h2⟩)) := by
  constructor
  · constructor
    · rintro rfl
      exact ⟨rfl, rfl, rfl, rfl, rfl, rfl, rfl, rfl, rfl, rfl, rfl, rfl, rfl,
        rfl, rfl, rfl⟩
    · rintro ⟨h1, h2, h3, h4, h5, h6, h7, h8, h9, h10, h11, h12, h13, h14, h15, h16⟩
      cases a
      cases b
      simp_all
  · exact List.ext_get_iff
